import Mathlib

/-!
Verification of the occopus/util communication substrate.

This file shallowly embeds the parts of the repository needed by the claims:

* `occo/util/communication/comm.py` — the `Response` envelope and its
  `check()` method, the `ExceptionResponse` subclass, and the abstract
  `EventDrivenConsumer._call_processor` contract;
* `occo/util/communication/mq.py` — the AMQP binding: `YAMLChannel`
  serialization, `MQRPCProducer.push_message` (single-flight RPC with a
  shared correlation slot, guaranteed reset in its `finally` block),
  `MQEventDrivenConsumer.__callback` (processing, reply, acknowledgement),
  `cancelled` and `start_consuming`;
* `occo/util/factory/__init__.py` — the pluggable-backend registry
  (`split`, `MultiBackend.instantiate`, `MultiBackend.from_config`).

Python's dynamically-typed values are embedded as the inductive `PyVal`;
exception objects are `PyVal.vexc` values, and raising is an `Except PyVal`
result.  The external PyYAML codec used by `YAMLChannel` is modelled at the
level of its event stream: serialization produces a list of `Tok` events
rather than character text (the character-level emitter is a library
external to the repository).
-/

/-- Kinds of Python exception classes appearing in the embedded code.
`commBase`, `commTransient`, `commCritical` are the `CommunicationError`
family from `occo/exceptions/communication.py`; the rest are builtin or
`occo.exceptions` classes used by the embedded modules. -/
inductive ExcKind where
  | notImplemented
  | commBase
  | commTransient
  | commCritical
  | valueErr
  | attributeErr
  | yamlErr
  | configErr
  | otherErr
  deriving DecidableEq, Repr

/-- A dynamically-typed Python value, as used by the communication layer:
scalars, lists, string-keyed mappings, `Response`/`ExceptionResponse`
objects (`vresp isExc http_code data finalize`) and exception objects
(`vexc kind http_code reason`). -/
inductive PyVal where
  | vnone
  | vbool (b : Bool)
  | vint (n : Int)
  | vstr (s : String)
  | vlist (xs : List PyVal)
  | vmap (kvs : List (String × PyVal))
  | vresp (isExc : Bool) (code : Int) (dat : PyVal) (fin : Bool)
  | vexc (k : ExcKind) (code : Int) (reason : PyVal)
  deriving Repr

/-- Serialization events of the YAML channel (the modelled wire alphabet). -/
inductive Tok where
  | tnone
  | tbool (b : Bool)
  | tint (n : Int)
  | tstr (s : String)
  | seqStart
  | seqEnd
  | mapStart
  | mapEnd
  | mapKey (k : String)
  | respTok (isExc : Bool) (code : Int) (fin : Bool)
  | excTok (k : ExcKind) (code : Int)
  deriving DecidableEq, Repr

mutual
/-- Embeds `YAMLChannel.serialize` (mq.py), modelled as PyYAML event emission. -/
def emit : PyVal → List Tok
  | .vnone => [.tnone]
  | .vbool b => [.tbool b]
  | .vint n => [.tint n]
  | .vstr s => [.tstr s]
  | .vlist xs => .seqStart :: emitSeq xs
  | .vmap kvs => .mapStart :: emitMap kvs
  | .vresp isExc code dat fin => .respTok isExc code fin :: emit dat
  | .vexc k code reason => .excTok k code :: emit reason

/-- Event emission for the elements of a YAML sequence. -/
def emitSeq : List PyVal → List Tok
  | [] => [.seqEnd]
  | x :: xs => emit x ++ emitSeq xs

/-- Event emission for the pairs of a YAML mapping. -/
def emitMap : List (String × PyVal) → List Tok
  | [] => [.mapEnd]
  | (k, v) :: kvs => .mapKey k :: (emit v ++ emitMap kvs)
end

mutual
/-- Fuelled event parser for one value (PyYAML compose step). -/
def parseVal : Nat → List Tok → Option (PyVal × List Tok)
  | 0, _ => none
  | _ + 1, [] => none
  | f + 1, t :: ts =>
    match t with
    | .tnone => some (.vnone, ts)
    | .tbool b => some (.vbool b, ts)
    | .tint n => some (.vint n, ts)
    | .tstr s => some (.vstr s, ts)
    | .seqStart =>
      match parseSeq f ts with
      | some (xs, r) => some (.vlist xs, r)
      | none => none
    | .mapStart =>
      match parseMap f ts with
      | some (kvs, r) => some (.vmap kvs, r)
      | none => none
    | .respTok isExc code fin =>
      match parseVal f ts with
      | some (d, r) => some (.vresp isExc code d fin, r)
      | none => none
    | .excTok k code =>
      match parseVal f ts with
      | some (d, r) => some (.vexc k code d, r)
      | none => none
    | .seqEnd => none
    | .mapEnd => none
    | .mapKey _ => none

/-- Fuelled event parser for sequence elements up to `seqEnd`. -/
def parseSeq : Nat → List Tok → Option (List PyVal × List Tok)
  | 0, _ => none
  | _ + 1, [] => none
  | _ + 1, .seqEnd :: ts => some ([], ts)
  | f + 1, ts =>
    match parseVal f ts with
    | none => none
    | some (x, r) =>
      match parseSeq f r with
      | none => none
      | some (xs, r2) => some (x :: xs, r2)

/-- Fuelled event parser for mapping pairs up to `mapEnd`. -/
def parseMap : Nat → List Tok → Option (List (String × PyVal) × List Tok)
  | 0, _ => none
  | _ + 1, [] => none
  | _ + 1, .mapEnd :: ts => some ([], ts)
  | f + 1, .mapKey k :: ts =>
    match parseVal f ts with
    | none => none
    | some (v, r) =>
      match parseMap f r with
      | none => none
      | some (kvs, r2) => some ((k, v) :: kvs, r2)
  | _ + 1, _ => none
end

/-- Embeds `YAMLChannel.serialize` (mq.py line 37). -/
def serializeY (obj : PyVal) : List Tok := emit obj

/-- Embeds `YAMLChannel.deserialize` (mq.py line 41); `none` models a
`yaml.YAMLError` raised on a malformed representation. -/
def deserializeY (repr_ : List Tok) : Option PyVal :=
  match parseVal repr_.length repr_ with
  | some (v, []) => some v
  | _ => none

/-- The `Response` envelope (comm.py lines 75-77); `finalize` defaults to
`True` at the call sites modelled below. -/
structure Response where
  http_code : Int
  data : PyVal
  finalize : Bool
  deriving Repr

/-- Embeds `Response.check` (comm.py lines 79-93): raise an exception based on the
status code of the response. -/
def Response.check (r : Response) : Except PyVal Unit :=
  if r.http_code ≤ 199 then .error (.vexc .notImplemented 0 .vnone)
  else if r.http_code ≤ 299 then .ok ()
  else if r.http_code ≤ 399 then .error (.vexc .notImplemented 0 .vnone)
  else if r.http_code ≤ 499 then .error (.vexc .commCritical r.http_code r.data)
  else if r.http_code ≤ 599 then .error (.vexc .commTransient r.http_code r.data)
  else .error (.vexc .notImplemented 0 .vnone)

/-- Embeds `ExceptionResponse.check` (comm.py lines 95-98): raise `self.data`. -/
def ExceptionResponse.check (r : Response) : Except PyVal Unit :=
  .error r.data

/-- Python dynamic dispatch of `.check()` on a deserialized response object:
`ExceptionResponse` instances run the override, plain `Response` instances
run the base method. -/
def checkDispatch (isExc : Bool) (r : Response) : Except PyVal Unit :=
  if isExc then ExceptionResponse.check r else Response.check r

/-- AMQP message properties relevant to the RPC protocol
(`reply_to`, `correlation_id`). -/
structure Props where
  reply_to : Option String
  correlation_id : Option String
  deriving Repr

/-- A message published to a reply queue by the consumer. -/
structure ReplyMsg where
  routing_key : String
  correlation_id : Option String
  body : List Tok
  deriving Repr

/-- Outcome of calling the collaborator-supplied processor function
(`EventDrivenConsumer._call_processor`, comm.py lines 194-197): it either
returns a value or raises an exception object. -/
inductive ProcResult where
  | ret (v : PyVal)
  | raise (e : PyVal)

/-- Embeds `comm.Response(500, 'Internal Server Error')` (mq.py line 359). -/
def internalServerError : PyVal :=
  .vresp false 500 (.vstr "Internal Server Error") true

/-- Python truthiness of the optional `reply_to` string property:
`None` and the empty string are falsy. -/
def truthyStr : Option String → Bool
  | none => false
  | some s => s != ""

/-- Embeds `MQEventDrivenConsumer.__reply_if_rpc` (mq.py lines 316-335): publish the
response to `props.reply_to` with the same correlation id iff the incoming
message carried a reply destination.  Its own publish failures are swallowed
(`except Exception: log`), so it never raises. -/
def replyIfRpc (response : PyVal) (props : Props) : List ReplyMsg :=
  if truthyStr props.reply_to then
    [⟨props.reply_to.getD "", props.correlation_id, serializeY response⟩]
  else []

/-- The value bound to `response` when `MQEventDrivenConsumer.__callback`
(mq.py lines 337-360) reaches its `finally` block: the processor's return
value when it returns, and `Response(500, 'Internal Server Error')` for
every exception.  The inner handler at mq.py line 349 is written
`except comm.CommunicationError`, but the `comm` module has no
`CommunicationError` attribute (comm.py lines 27-32 import only
`TransientError` and `CriticalError` from `occo.exceptions`): the moment
any exception needs matching, the handler-clause lookup itself raises
`AttributeError`, which the outer `except Exception` (mq.py line 357)
catches.  Hence every processor exception — deserialization failures and
`CommunicationError` instances included — lands in the outer handler, and
the `ExceptionResponse(e.http_code, e)` conversion at line 351 is
unreachable. -/
def callbackResponse (processor : PyVal → ProcResult) (body : List Tok) : PyVal :=
  match deserializeY body with
  | none => internalServerError
  | some msg =>
    match processor msg with
    | .ret v => v
    | .raise _ => internalServerError

/-- The `finally` block of `__callback` (mq.py lines 361-367):
`if response is None or response.finalize: ch.basic_ack(...)`.  The
attribute access `response.finalize` raises `AttributeError` when
`response` is neither `None` nor a `Response` object. -/
def ackDecision : PyVal → Except PyVal Bool
  | .vnone => .ok true
  | .vresp _ _ _ fin => .ok fin
  | _ => .error (.vexc .attributeErr 0 (.vstr "finalize"))

/-- Observable result of one run of the consumer's per-message callback. -/
structure CallbackResult where
  replies : List ReplyMsg
  acked : Bool
  escaped : Option PyVal
  deriving Repr

/-- Embeds `MQEventDrivenConsumer.__callback` (mq.py lines 337-367): compute the
response, reply iff the message was an RPC message, then acknowledge the
message iff the response is `None` or has a true `finalize` flag; an
exception raised by the `finalize` attribute access escapes the callback
with the message unacknowledged. -/
def MQEventDrivenConsumer.callback (processor : PyVal → ProcResult)
    (props : Props) (body : List Tok) : CallbackResult :=
  let response := callbackResponse processor body
  let replies := replyIfRpc response props
  match ackDecision response with
  | .ok b => ⟨replies, b, none⟩
  | .error e => ⟨replies, false, some e⟩

/-- Embeds `MQEventDrivenConsumer.cancelled` (mq.py lines 369-376) evaluated at
the `k`-th check: `not self.cancel_event or self.cancel_event.is_set()`.
`cancel_event` is modelled as the sequence of `is_set()` readings it would
deliver; `none` models a consumer constructed with no `cancel_event`. -/
def MQEventDrivenConsumer.cancelled (cancel_event : Option (Nat → Bool))
    (k : Nat) : Bool :=
  match cancel_event with
  | none => true
  | some isSet => isSet k

/-- The loop of `start_consuming` (mq.py lines 378-382), fuelled: at the
`k`-th iteration it evaluates `cancelled` once and either returns (yielding
the number of completed pump cycles) or pumps broker events and repeats.
`none` means the loop was still running when the fuel ran out. -/
def startConsumingLoop (cancel_event : Option (Nat → Bool)) :
    Nat → Nat → Option Nat
  | 0, _ => none
  | f + 1, k =>
    if MQEventDrivenConsumer.cancelled cancel_event k then some k
    else startConsumingLoop cancel_event f (k + 1)

/-- Embeds `MQEventDrivenConsumer.start_consuming` (mq.py lines 378-382):
`while not self.cancelled: self.connection.process_data_events()`. -/
def MQEventDrivenConsumer.start_consuming (cancel_event : Option (Nat → Bool))
    (fuel : Nat) : Option Nat :=
  startConsumingLoop cancel_event fuel 0

/-- Pending-RPC state of an `MQRPCProducer` instance: the instance lock
(mq.py line 205), the correlation token and the reply slot (lines 208-215). -/
structure RPCState where
  lock : Bool
  correlation_id : Option String
  response : Option (List Tok)
  deriving Repr

/-- A request the producer published to the broker. -/
structure PublishedMsg where
  routing_key : String
  body : List Tok
  reply_to : Option String
  correlation_id : Option String
  deriving Repr

/-- The broker environment a `push_message` call runs against:
whether `queue_declare` and `basic_publish` succeed, and which messages
subsequently arrive on the producer's connection (as a function of the
published request body and its correlation id). -/
structure PushEnv where
  declare_ok : Bool
  publish_ok : Bool
  arrivals : List Tok → Option String → List ReplyMsg

/-- The producer's private exclusive reply queue
(`declare_response_queue`, mq.py lines 119-125, 219). -/
def callback_queue : String := "amq.gen-response"

/-- Embeds `MQHandler.effective_routing_key` (mq.py lines 96-109):
`coalesce(override, default, ValueError(...))` — the first non-`None`
of override and instance default, raising `ValueError` if both are
`None` (icoalesce raises a result that is an exception object). -/
def effective_routing_key (override default_rk : Option String) :
    Except PyVal String :=
  match override with
  | some r => .ok r
  | none =>
    match default_rk with
    | some r => .ok r
    | none =>
      .error (.vexc .valueErr 0 (.vstr "publish_message: Routing key is mandatory"))

/-- Embeds `MQRPCProducer.__on_response` (mq.py lines 225-233) applied to the
stream of messages arriving on the producer's reply consumer: the slot is
filled by the first message delivered to the callback queue whose
`correlation_id` equals the armed token. -/
def onResponseScan (cid : Option String) : List ReplyMsg → Option (List Tok)
  | [] => none
  | m :: ms =>
    if m.routing_key == callback_queue && cid == m.correlation_id then some m.body
    else onResponseScan cid ms

/-- Embeds `MQRPCProducer.__reset` (mq.py lines 208-215): clear the reply slot and
the correlation token. -/
def MQRPCProducer.reset (st : RPCState) : RPCState :=
  { st with response := none, correlation_id := none }

/-- Observable result of one `MQRPCProducer.push_message` call. -/
structure PushResult where
  waitedForLock : Bool
  published : List PublishedMsg
  outcome : Option (Except PyVal PyVal)
  final : Option RPCState

/-- The `try` block of `MQRPCProducer.push_message` (mq.py lines 240-265),
given the state `st1` holding after `self.correlation_id = str(uuid.uuid4())`:
resolve the routing key, declare the queue, publish the request carrying
`reply_to`/`correlation_id`, wait until the reply slot is non-empty,
deserialize the stored body, `check()` it and return its `data`.  The first
component is `none` when the wait loop never observes a matching reply (the
call blocks forever); otherwise it is the return value or the raised
exception.  The last component is the instance state when the `finally`
block is reached. -/
def pushBody (env : PushEnv) (st1 : RPCState) (default_rk : Option String)
    (msg : PyVal) (routing_key : Option String) (cid : String) :
    Option (Except PyVal PyVal) × List PublishedMsg × RPCState :=
  match effective_routing_key routing_key default_rk with
  | .error e => (some (.error e), [], st1)
  | .ok rkey =>
    if env.declare_ok = false then
      (some (.error (.vexc .otherErr 0 (.vstr "queue_declare failed"))), [], st1)
    else if env.publish_ok = false then
      (some (.error (.vexc .otherErr 0 (.vstr "basic_publish failed"))), [], st1)
    else
      let pub : PublishedMsg := ⟨rkey, serializeY msg, some callback_queue, some cid⟩
      let slot :=
        match st1.response with
        | some b => some b
        | none => onResponseScan (some cid) (env.arrivals pub.body (some cid))
      match slot with
      | none => (none, [pub], st1)
      | some body2 =>
        let st2 := { st1 with response := some body2 }
        match deserializeY body2 with
        | none => (some (.error (.vexc .yamlErr 0 (.vstr "deserialize"))), [pub], st2)
        | some v =>
          match v with
          | .vresp isExc code dat fin =>
            match checkDispatch isExc ⟨code, dat, fin⟩ with
            | .error e => (some (.error e), [pub], st2)
            | .ok _ => (some (.ok dat), [pub], st2)
          | _ => (some (.error (.vexc .attributeErr 0 (.vstr "check"))), [pub], st2)

/-- Embeds `MQRPCProducer.push_message` (mq.py lines 235-270).  `self.lock.acquire()`
is a blocking `threading.Lock` acquisition: when the lock is held by a prior
call the new call waits for its release (recorded in `waitedForLock`) and
then proceeds.  The `finally` block (lines 266-270) runs `__reset` and
releases the lock whenever the `try` block terminates; if the wait loop never
terminates, neither does the call, and the `finally` never runs
(`outcome = none`, `final = none`). -/
def MQRPCProducer.push_message (env : PushEnv) (st : RPCState)
    (default_rk : Option String) (msg : PyVal) (routing_key : Option String)
    (cid : String) : PushResult :=
  let waited := st.lock
  let st1 : RPCState := { lock := true, correlation_id := some cid, response := st.response }
  let r := pushBody env st1 default_rk msg routing_key cid
  match r.1 with
  | none => ⟨waited, r.2.1, none, none⟩
  | some out =>
    ⟨waited, r.2.1, some out, some { (MQRPCProducer.reset r.2.2) with lock := false }⟩

/-- The environment in which the producer's request is processed by an
`MQEventDrivenConsumer` bound to the same queue: the replies arriving at the
producer are exactly those the consumer's callback publishes for the request,
whose properties carry the producer's reply queue and correlation token. -/
def rpcEnv (processor : PyVal → ProcResult) : PushEnv :=
  { declare_ok := true
    publish_ok := true
    arrivals := fun body cid =>
      (MQEventDrivenConsumer.callback processor ⟨some callback_queue, cid⟩ body).replies }

/-- A `MultiBackend` role class in the registry: its name and its
`backends` mapping (`none` models a class without the `backends`
attribute, i.e. a role with no registration at all). -/
structure RoleClass where
  name : String
  backends : Option (List (String × String))
  deriving Repr

/-- Embeds `MultiBackend.instantiate` (factory/__init__.py lines 154-189): with
discriminator `None` construct the role class itself; otherwise require a
`backends` attribute and a registered backend for the discriminator, and
construct that backend (`object.__new__(objclass)` followed by
`objclass.__init__`).  The constructed instance is represented by the name
of the class it instantiates. -/
def MultiBackend.instantiate (cls : RoleClass) (protocol : PyVal) :
    Except PyVal String :=
  match protocol with
  | .vnone => .ok cls.name
  | p =>
    match cls.backends with
    | none =>
      .error (.vexc .configErr 0 (.vstr "The MultiBackend class has no registered backends."))
    | some bs =>
      match p with
      | .vstr s =>
        match bs.find? (fun kv => kv.1 == s) with
        | some kv => .ok kv.2
        | none => .error (.vexc .configErr 0 (.vstr "The backend does not exist."))
      | _ => .error (.vexc .configErr 0 (.vstr "The backend does not exist."))

/-- Embeds `split` (factory/__init__.py lines 95-101): split a configuration
mapping into `protocol` and the rest; raise
`ConfigurationError('protocol', 'Missing protocol specification')` when the
mapping has no `protocol` key. -/
def Factory.split (mapping : List (String × PyVal)) :
    Except PyVal (List (String × PyVal) × PyVal) :=
  match mapping.find? (fun kv => kv.1 == "protocol") with
  | none => .error (.vexc .configErr 0 (.vstr "Missing protocol specification"))
  | some kv => .ok (mapping.filter (fun x => x.1 != "protocol"), kv.2)

/-- Embeds `YAMLConstructor.__call__` (factory/__init__.py lines 103-122): the
declarative path instantiating a backend from a configuration mapping in a
YAML document — `split` the mapping, then `instantiate`, wrapping any
instantiation failure in a `ConfigurationError`. -/
def YAMLConstructor.call (cls : RoleClass) (mapping : List (String × PyVal)) :
    Except PyVal String :=
  match Factory.split mapping with
  | .error e => .error e
  | .ok (_, protocol) =>
    match MultiBackend.instantiate cls protocol with
    | .error _ =>
      .error (.vexc .configErr 0 (.vstr "Abstract factory error while parsing YAML"))
    | .ok inst => .ok inst

/-- Configuration data accepted by `MultiBackend.from_config`. -/
inductive Cfg where
  | str (s : String)
  | map (m : List (String × PyVal))
  | other
  deriving Repr

/-- Embeds `MultiBackend.from_config` (factory/__init__.py lines 191-213): a bare
string is the protocol; a mapping must contain `protocol` (the `KeyError`
on a missing key is converted to `ValueError('Invalid backend
configuration')`); any other value raises the same `ValueError`. -/
def MultiBackend.from_config (cls : RoleClass) (cfg : Cfg) :
    Except PyVal String :=
  match cfg with
  | .str s => MultiBackend.instantiate cls (.vstr s)
  | .map m =>
    match m.find? (fun kv => kv.1 == "protocol") with
    | none => .error (.vexc .valueErr 0 (.vstr "Invalid backend configuration"))
    | some kv => MultiBackend.instantiate cls kv.2
  | .other => .error (.vexc .valueErr 0 (.vstr "Invalid backend configuration"))

/-- `isinstance(e, occo.exceptions.ConfigurationError)`. -/
def isConfigurationError : PyVal → Bool
  | .vexc .configErr _ _ => true
  | _ => false

/-- The RPC consumer core used by the repository's own tests (mq_test.py
`consumer_core`): return `Response(200, 'RE: ' + msg)`. -/
def respProcessor : PyVal → ProcResult
  | .vstr s => .ret (.vresp false 200 (.vstr ("RE: " ++ s)) true)
  | _ => .ret .vnone

/-- A processor returning the raw value `'RE: ' + message`, with no
`Response` wrapper. -/
def rawProcessor : PyVal → ProcResult
  | .vstr s => .ret (.vstr ("RE: " ++ s))
  | _ => .ret .vnone

/-- A processor that raises the given exception object. -/
def raisingProcessor (e : PyVal) : PyVal → ProcResult := fun _ => .raise e

lemma emit_length_pos (v : PyVal) : 1 ≤ (emit v).length := by
  cases v <;> simp [emit]

lemma emitSeq_length_pos (xs : List PyVal) : 1 ≤ (emitSeq xs).length := by
  cases xs with
  | nil => simp [emitSeq]
  | cons x xs =>
    simp only [emitSeq, List.length_append]
    have := emit_length_pos x
    omega

lemma emitMap_length_pos (kvs : List (String × PyVal)) : 1 ≤ (emitMap kvs).length := by
  cases kvs with
  | nil => simp [emitMap]
  | cons kv kvs => simp [emitMap]

lemma parseSeq_cons_emit (f : Nat) (x : PyVal) (R : List Tok) :
    parseSeq (f + 1) (emit x ++ R) =
      match parseVal f (emit x ++ R) with
      | none => none
      | some (y, r) =>
        match parseSeq f r with
        | none => none
        | some (ys, r2) => some (y :: ys, r2) := by
  cases x <;> simp [emit, parseSeq]

lemma parse_emit (fuel : Nat) :
    (∀ v rest, (emit v).length ≤ fuel → parseVal fuel (emit v ++ rest) = some (v, rest)) ∧
    (∀ xs rest, (emitSeq xs).length ≤ fuel → parseSeq fuel (emitSeq xs ++ rest) = some (xs, rest)) ∧
    (∀ kvs rest, (emitMap kvs).length ≤ fuel →
      parseMap fuel (emitMap kvs ++ rest) = some (kvs, rest)) := by
  induction fuel with
  | zero =>
    refine ⟨fun v rest h => ?_, fun xs rest h => ?_, fun kvs rest h => ?_⟩
    · exact absurd h (by have := emit_length_pos v; omega)
    · exact absurd h (by have := emitSeq_length_pos xs; omega)
    · exact absurd h (by have := emitMap_length_pos kvs; omega)
  | succ f ih =>
    obtain ⟨ihV, ihS, ihM⟩ := ih
    refine ⟨fun v rest h => ?_, fun xs rest h => ?_, fun kvs rest h => ?_⟩
    · cases v with
      | vnone => simp [emit, parseVal]
      | vbool b => simp [emit, parseVal]
      | vint n => simp [emit, parseVal]
      | vstr s => simp [emit, parseVal]
      | vlist xs =>
        have hl : (emitSeq xs).length ≤ f := by simp [emit] at h; omega
        simp [emit, parseVal, ihS xs rest hl]
      | vmap kvs =>
        have hl : (emitMap kvs).length ≤ f := by simp [emit] at h; omega
        simp [emit, parseVal, ihM kvs rest hl]
      | vresp isExc code dat fin =>
        have hl : (emit dat).length ≤ f := by simp [emit] at h; omega
        simp [emit, parseVal, ihV dat rest hl]
      | vexc k code reason =>
        have hl : (emit reason).length ≤ f := by simp [emit] at h; omega
        simp [emit, parseVal, ihV reason rest hl]
    · cases xs with
      | nil => simp [emitSeq, parseSeq]
      | cons x xs =>
        have h1 : (emit x).length ≤ f := by
          simp [emitSeq] at h
          have := emitSeq_length_pos xs
          omega
        have h2 : (emitSeq xs).length ≤ f := by
          simp [emitSeq] at h
          have := emit_length_pos x
          omega
        have hrw : emitSeq (x :: xs) ++ rest = emit x ++ (emitSeq xs ++ rest) := by
          simp [emitSeq]
        rw [hrw, parseSeq_cons_emit, ihV x _ h1]
        simp [ihS xs rest h2]
    · cases kvs with
      | nil => simp [emitMap, parseMap]
      | cons kv kvs =>
        obtain ⟨k, v⟩ := kv
        have h1 : (emit v).length ≤ f := by
          simp [emitMap] at h
          have := emitMap_length_pos kvs
          omega
        have h2 : (emitMap kvs).length ≤ f := by
          simp [emitMap] at h
          have := emit_length_pos v
          omega
        have hrw : emitMap ((k, v) :: kvs) ++ rest =
            Tok.mapKey k :: (emit v ++ (emitMap kvs ++ rest)) := by
          simp [emitMap]
        rw [hrw]
        simp [parseMap, ihV v _ h1, ihM kvs rest h2]

lemma deserialize_serialize (P : PyVal) : deserializeY (serializeY P) = some P := by
  have h := (parse_emit (emit P).length).1 P [] (by simp)
  rw [List.append_nil] at h
  simp [deserializeY, serializeY, h]


lemma push_via_consumer (proc : PyVal → ProcResult) (l : Bool) (co : Option String)
    (q cid : String) (msg : PyVal) :
    (MQRPCProducer.push_message (rpcEnv proc) ⟨l, co, none⟩ (some q) msg none cid).outcome =
      some (match callbackResponse proc (serializeY msg) with
        | .vresp isExc code dat fin =>
          match checkDispatch isExc ⟨code, dat, fin⟩ with
          | .error e => .error e
          | .ok _ => .ok dat
        | _ => .error (.vexc .attributeErr 0 (.vstr "check"))) := by
  have hcb : (MQEventDrivenConsumer.callback proc ⟨some callback_queue, some cid⟩
      (serializeY msg)).replies =
      [⟨callback_queue, some cid, serializeY (callbackResponse proc (serializeY msg))⟩] := by
    unfold MQEventDrivenConsumer.callback
    cases hAck : ackDecision (callbackResponse proc (serializeY msg)) <;>
      simp [hAck, replyIfRpc, truthyStr, callback_queue]
  unfold MQRPCProducer.push_message pushBody
  simp only [rpcEnv, effective_routing_key]
  rw [hcb]
  simp only [onResponseScan, beq_self_eq_true, Bool.and_self, if_true]
  rw [deserialize_serialize]
  cases hr : callbackResponse proc (serializeY msg) <;> simp
  case vresp isExc code dat fin =>
    cases hc : checkDispatch isExc ⟨code, dat, fin⟩ <;> simp

lemma startConsumingLoop_sound (ev : Option (Nat → Bool)) (f : Nat) :
    ∀ k n, startConsumingLoop ev f k = some n →
      k ≤ n ∧ (∀ j, k ≤ j → j < n → MQEventDrivenConsumer.cancelled ev j = false) ∧
      MQEventDrivenConsumer.cancelled ev n = true := by
  induction f with
  | zero => intro k n h; simp [startConsumingLoop] at h
  | succ f ih =>
    intro k n h
    by_cases hc : MQEventDrivenConsumer.cancelled ev k = true
    · simp [startConsumingLoop, hc] at h
      subst h
      exact ⟨le_refl _, fun j h1 h2 => absurd h2 (by omega), hc⟩
    · have hcf : MQEventDrivenConsumer.cancelled ev k = false := by
        cases hx : MQEventDrivenConsumer.cancelled ev k
        · rfl
        · exact absurd hx hc
      simp [startConsumingLoop, hcf] at h
      obtain ⟨h1, h2, h3⟩ := ih (k + 1) n h
      refine ⟨by omega, fun j hj1 hj2 => ?_, h3⟩
      rcases Nat.eq_or_lt_of_le hj1 with he | hl
      · exact he ▸ hcf
      · exact h2 j hl hj2

lemma startConsumingLoop_complete (ev : Option (Nat → Bool)) (f : Nat) :
    ∀ k n, k ≤ n → n - k < f →
      (∀ j, k ≤ j → j < n → MQEventDrivenConsumer.cancelled ev j = false) →
      MQEventDrivenConsumer.cancelled ev n = true →
      startConsumingLoop ev f k = some n := by
  induction f with
  | zero => intro k n h1 h2 _ _; omega
  | succ f ih =>
    intro k n h1 h2 hall hn
    by_cases hkn : k = n
    · subst hkn; simp [startConsumingLoop, hn]
    · have hlt : k < n := lt_of_le_of_ne h1 hkn
      have hck : MQEventDrivenConsumer.cancelled ev k = false := hall k (le_refl _) hlt
      simp [startConsumingLoop, hck]
      exact ih (k + 1) n (by omega) (by omega) (fun j hj1 hj2 => hall j (by omega) hj2) hn

/-- Claim C1 counterexample: the claim states that a second `push_message` issued while a prior
one is in flight raises immediately and publishes nothing.  In the code the
guard is a blocking `threading.Lock`, not a check-and-raise: at a state
whose lock is held, the call waits for the lock, then proceeds, publishes
its own request and returns the payload — it neither raises nor refrains
from publishing. -/
theorem second_push_blocks_not_raises :
    (MQRPCProducer.push_message (rpcEnv respProcessor) ⟨true, some "c0", none⟩
        (some "q") (.vstr "ping") none "c1").waitedForLock = true ∧
    (MQRPCProducer.push_message (rpcEnv respProcessor) ⟨true, some "c0", none⟩
        (some "q") (.vstr "ping") none "c1").outcome = some (.ok (.vstr "RE: ping")) ∧
    (MQRPCProducer.push_message (rpcEnv respProcessor) ⟨true, some "c0", none⟩
        (some "q") (.vstr "ping") none "c1").published =
      [⟨"q", serializeY (.vstr "ping"), some callback_queue, some "c1"⟩] :=
  ⟨rfl, rfl, rfl⟩

/-- Claim C1 (amended): a second `push_message` on an instance whose lock is held
blocks on `self.lock.acquire()` until the prior call releases it, and then
behaves exactly as a call on the unlocked instance: same outcome, same
published requests, same final state; it is serialized behind the first
call, not rejected. -/
theorem second_push_serialized_behind_lock (env : PushEnv) (st : RPCState)
    (drk : Option String) (msg : PyVal) (rk : Option String) (cid : String) :
    (MQRPCProducer.push_message env { st with lock := true } drk msg rk cid).waitedForLock
      = true ∧
    (MQRPCProducer.push_message env { st with lock := false } drk msg rk cid).waitedForLock
      = false ∧
    (MQRPCProducer.push_message env { st with lock := true } drk msg rk cid).outcome =
      (MQRPCProducer.push_message env { st with lock := false } drk msg rk cid).outcome ∧
    (MQRPCProducer.push_message env { st with lock := true } drk msg rk cid).published =
      (MQRPCProducer.push_message env { st with lock := false } drk msg rk cid).published ∧
    (MQRPCProducer.push_message env { st with lock := true } drk msg rk cid).final =
      (MQRPCProducer.push_message env { st with lock := false } drk msg rk cid).final := by
  unfold MQRPCProducer.push_message
  cases h : (pushBody env ⟨true, some cid, st.response⟩ drk msg rk cid).1 <;> simp [h]

/-- Claim C2 (code bug): the claim — and the code's evident intent at
mq.py lines 349-351 — is that a `CommunicationError` raised by the
processor becomes an `ExceptionResponse` re-raised verbatim by the RPC
caller.  The code cannot do this: `except comm.CommunicationError` names
an attribute the `comm` module does not define, so the handler lookup
raises `AttributeError` at match time and the outer handler converts
every processor exception — `CriticalError(403, 'x')` included — to
`Response(500, 'Internal Server Error')`; the waiting caller raises
`TransientError(500)`, never the original exception.  This theorem
evaluates the faithful model at an arbitrary raised exception `e`,
covering the failing input `e = CriticalError(403, 'x')`. -/
theorem rpc_processor_exception_always_500 (q cid : String) (msg : PyVal)
    (e : PyVal) :
    callbackResponse (raisingProcessor e) (serializeY msg) = internalServerError ∧
    (MQRPCProducer.push_message (rpcEnv (raisingProcessor e))
        ⟨false, none, none⟩ (some q) msg none cid).outcome =
      some (.error (.vexc .commTransient 500 (.vstr "Internal Server Error"))) := by
  have h : callbackResponse (raisingProcessor e) (serializeY msg) = internalServerError := by
    simp [callbackResponse, raisingProcessor, deserialize_serialize]
  refine ⟨h, ?_⟩
  rw [push_via_consumer, h]
  rfl

/-- Claim C3: the method `Response.check` raises nothing exactly on 200-299, raises
`CriticalError` carrying the code and the payload exactly on 400-499,
raises `TransientError` carrying the code and the payload exactly on
500-599, and raises `NotImplementedError` on every other code. -/
theorem response_check_bands (code : Int) (dat : PyVal) (fin : Bool) :
    (Response.check ⟨code, dat, fin⟩ = .ok () ↔ 200 ≤ code ∧ code ≤ 299) ∧
    (Response.check ⟨code, dat, fin⟩ = .error (.vexc .commCritical code dat) ↔
      400 ≤ code ∧ code ≤ 499) ∧
    (Response.check ⟨code, dat, fin⟩ = .error (.vexc .commTransient code dat) ↔
      500 ≤ code ∧ code ≤ 599) ∧
    (Response.check ⟨code, dat, fin⟩ = .error (.vexc .notImplemented 0 .vnone) ↔
      (code ≤ 199 ∨ (300 ≤ code ∧ code ≤ 399) ∨ 600 ≤ code)) := by
  unfold Response.check
  split_ifs <;> simp_all <;> omega

/-- Claim C4 counterexample: the claim states that a consumer constructed with no `cancel_event`
loops forever in `start_consuming`.  In the code the `cancelled` property is
`not self.cancel_event or self.cancel_event.is_set()`, which is true when
`cancel_event` is `None`, so `start_consuming` returns immediately after
zero pump cycles. -/
theorem start_consuming_no_event_returns_immediately :
    MQEventDrivenConsumer.cancelled none 0 = true ∧
    MQEventDrivenConsumer.start_consuming none 5 = some 0 ∧
    MQEventDrivenConsumer.start_consuming none 1000000 = some 0 :=
  ⟨rfl, rfl, by
    show startConsumingLoop none 1000000 0 = some 0
    cases h : (1000000 : Nat) with
    | zero => exact absurd h (by omega)
    | succ f => simp [startConsumingLoop, MQEventDrivenConsumer.cancelled]⟩

/-- Claim C4 (amended): with a `cancel_event`, `start_consuming` pumps broker
events while the flag is unset, checks the flag exactly once per loop
iteration, and returns (after `n` pump cycles) exactly when the `n`-th
check observes the flag set; with no `cancel_event`, `cancelled` is true
and `start_consuming` returns immediately after zero pump cycles. -/
theorem start_consuming_cancellation (isSet : Nat → Bool) (fuel n : Nat) :
    (MQEventDrivenConsumer.start_consuming (some isSet) fuel = some n →
      (∀ k, k < n → isSet k = false) ∧ isSet n = true) ∧
    ((∀ k, k < n → isSet k = false) → isSet n = true → n < fuel →
      MQEventDrivenConsumer.start_consuming (some isSet) fuel = some n) ∧
    (0 < fuel → MQEventDrivenConsumer.start_consuming none fuel = some 0) := by
  refine ⟨?_, ?_, ?_⟩
  · intro h
    obtain ⟨_, h2, h3⟩ := startConsumingLoop_sound (some isSet) fuel 0 n h
    exact ⟨fun k hk => h2 k (Nat.zero_le _) hk, h3⟩
  · intro hall hn hf
    exact startConsumingLoop_complete (some isSet) fuel 0 n (Nat.zero_le _) (by omega)
      (fun j _ hj => hall j hj) hn
  · intro hf
    cases fuel with
    | zero => omega
    | succ f =>
      simp [MQEventDrivenConsumer.start_consuming, startConsumingLoop,
        MQEventDrivenConsumer.cancelled]

/-- Claim C4 witness: an event first observed set at the third check makes
`start_consuming` return after exactly two pump cycles. -/
theorem start_consuming_cancellation_witness :
    MQEventDrivenConsumer.start_consuming (some (fun k => decide (2 ≤ k))) 5 = some 2 :=
  (start_consuming_cancellation (fun k => decide (2 ≤ k)) 5 2).2.1
    (by decide) (by decide) (by decide)

/-- Claim C5 counterexample: the claim states that every callback outcome other than an explicit
`finalize=false` response is acknowledged.  A processor returning a raw
non-`None`, non-`Response` value — here the raw string `'RE: ping'`, which
carries no `finalize` flag at all — leaves the message unacknowledged: the
attribute access `response.finalize` in the `finally` block raises
`AttributeError`, which escapes the callback. -/
theorem consumer_raw_value_not_acked :
    (MQEventDrivenConsumer.callback rawProcessor ⟨some callback_queue, some "c1"⟩
        (serializeY (.vstr "ping"))).acked = false ∧
    callbackResponse rawProcessor (serializeY (.vstr "ping")) = .vstr "RE: ping" ∧
    (MQEventDrivenConsumer.callback rawProcessor ⟨some callback_queue, some "c1"⟩
        (serializeY (.vstr "ping"))).escaped =
      some (.vexc .attributeErr 0 (.vstr "finalize")) :=
  ⟨rfl, rfl, rfl⟩

/-- Claim C5 (amended): the consumer's callback acknowledges the incoming message
iff the computed response is `None` (processor returned nothing) or is a
`Response` object whose `finalize` flag is true; in particular a
`finalize=false` response leaves the message unacknowledged, and a raw
non-`None`, non-`Response` outcome also leaves it unacknowledged (the
`finalize` attribute access raises instead of acknowledging). -/
theorem consumer_ack_iff_finalize (proc : PyVal → ProcResult) (props : Props)
    (body : List Tok) :
    (MQEventDrivenConsumer.callback proc props body).acked = true ↔
      (callbackResponse proc body = .vnone ∨
        ∃ isExc code dat, callbackResponse proc body = .vresp isExc code dat true) := by
  unfold MQEventDrivenConsumer.callback
  cases hr : callbackResponse proc body <;> simp [ackDecision, hr]

/-- Claim C6: whenever `push_message` terminates — returning the payload or
raising from routing-key resolution, queue declaration, publish, the reply
wait, deserialization or `check()` — the `finally` block has run `__reset`,
so the final state carries no correlation token and an empty reply slot. -/
theorem push_message_releases_pending_slot (env : PushEnv) (st : RPCState)
    (drk : Option String) (msg : PyVal) (rk : Option String) (cid : String)
    (s : RPCState)
    (h : (MQRPCProducer.push_message env st drk msg rk cid).final = some s) :
    s.correlation_id = none ∧ s.response = none := by
  simp only [MQRPCProducer.push_message, MQRPCProducer.reset] at h
  cases hb : (pushBody env ⟨true, some cid, st.response⟩ drk msg rk cid).1 with
  | none => rw [hb] at h; simp at h
  | some out =>
    rw [hb] at h
    simp only [Option.some.injEq] at h
    subst h
    exact ⟨rfl, rfl⟩

/-- Claim C6 witness: a concrete successful RPC call ends with both the
correlation token and the reply slot cleared. -/
theorem push_message_releases_pending_slot_witness :
    (MQRPCProducer.push_message (rpcEnv respProcessor) ⟨false, none, none⟩
        (some "q") (.vstr "ping") none "c1").final = some ⟨false, none, none⟩ ∧
    ((⟨false, none, none⟩ : RPCState).correlation_id = none ∧
      (⟨false, none, none⟩ : RPCState).response = none) :=
  ⟨rfl, push_message_releases_pending_slot (rpcEnv respProcessor) ⟨false, none, none⟩
      (some "q") (.vstr "ping") none "c1" ⟨false, none, none⟩ rfl⟩

/-- Claim C7 counterexample: the claim states that a processor returning the raw value
`'RE: ' + message` makes `push_message('ping')` return `'RE: ping'`.  In
the code a raw reply is serialized as-is, so the caller deserializes a bare
string and `response.check()` raises `AttributeError` — the call raises
instead of returning the payload. -/
theorem rpc_raw_processor_fails :
    (MQRPCProducer.push_message (rpcEnv rawProcessor) ⟨false, none, none⟩
        (some "q") (.vstr "ping") none "c1").outcome =
      some (.error (.vexc .attributeErr 0 (.vstr "check"))) ∧
    (MQRPCProducer.push_message (rpcEnv rawProcessor) ⟨false, none, none⟩
        (some "q") (.vstr "ping") none "c1").outcome ≠ some (.ok (.vstr "RE: ping")) :=
  ⟨rfl, by
    rw [show (MQRPCProducer.push_message (rpcEnv rawProcessor) ⟨false, none, none⟩
        (some "q") (.vstr "ping") none "c1").outcome =
      some (.error (.vexc .attributeErr 0 (.vstr "check"))) from rfl]
    simp⟩

/-- Claim C7 (amended): with the processor shape the repository's own tests use —
return `Response(200, 'RE: ' + msg)` — the end-to-end RPC happy path holds:
`push_message('ping')` returns `'RE: ping'`, and the consumer acknowledges
the message. -/
theorem rpc_happy_path_with_response :
    (MQRPCProducer.push_message (rpcEnv respProcessor) ⟨false, none, none⟩
        (some "q") (.vstr "ping") none "c1").outcome = some (.ok (.vstr "RE: ping")) ∧
    (MQEventDrivenConsumer.callback respProcessor ⟨some callback_queue, some "c1"⟩
        (serializeY (.vstr "ping"))).acked = true :=
  ⟨rfl, rfl⟩

/-- Claim C8 counterexample: the claim states that a configuration map lacking `protocol` makes
registry instantiation fail with `ConfigurationError`.  On the
`from_config` path the `KeyError` is converted to a plain `ValueError`
(`'Invalid backend configuration'`), which is not a `ConfigurationError`
— exactly what the repository's own test `test_fromcfg_3` asserts. -/
theorem from_config_missing_protocol_valueerror :
    MultiBackend.from_config ⟨"TestFactory", some [("test", "TestFactoryImp")]⟩
        (.map [("a", .vint 1)]) =
      .error (.vexc .valueErr 0 (.vstr "Invalid backend configuration")) ∧
    isConfigurationError (.vexc .valueErr 0 (.vstr "Invalid backend configuration")) = false :=
  ⟨rfl, rfl⟩

/-- Claim C8 (amended): the registry's failure modes are: a mapping lacking
`protocol` raises `ConfigurationError` on the `split`/YAML-constructor path
but plain `ValueError` on the `from_config` path; a non-`None`
discriminator with no `backends` attribute raises `ConfigurationError`;
an unknown discriminator raises `ConfigurationError`; and a registered
discriminator constructs the registered backend. -/
theorem registry_configuration_errors (cls : RoleClass) (m : List (String × PyVal))
    (s : String) (bs : List (String × String)) :
    (m.find? (fun kv => kv.1 == "protocol") = none →
      Factory.split m = .error (.vexc .configErr 0 (.vstr "Missing protocol specification")) ∧
      MultiBackend.from_config cls (.map m) =
        .error (.vexc .valueErr 0 (.vstr "Invalid backend configuration"))) ∧
    (cls.backends = none →
      MultiBackend.instantiate cls (.vstr s) =
        .error (.vexc .configErr 0
          (.vstr "The MultiBackend class has no registered backends."))) ∧
    (cls.backends = some bs → bs.find? (fun kv => kv.1 == s) = none →
      MultiBackend.instantiate cls (.vstr s) =
        .error (.vexc .configErr 0 (.vstr "The backend does not exist."))) ∧
    (∀ impl, cls.backends = some bs → bs.find? (fun kv => kv.1 == s) = some impl →
      MultiBackend.instantiate cls (.vstr s) = .ok impl.2) := by
  refine ⟨fun hm => ⟨?_, ?_⟩, fun hb => ?_, fun hb hf => ?_, fun impl hb hf => ?_⟩
  · simp [Factory.split, hm]
  · simp [MultiBackend.from_config, hm]
  · simp [MultiBackend.instantiate, hb]
  · simp [MultiBackend.instantiate, hb, hf]
  · simp [MultiBackend.instantiate, hb, hf]

/-- Claim C8 witness: concrete instances of each registry failure mode and of a
successful backend construction. -/
theorem registry_configuration_errors_witness :
    MultiBackend.from_config ⟨"T", some [("test", "TI")]⟩ (.map [("a", .vint 1)]) =
      .error (.vexc .valueErr 0 (.vstr "Invalid backend configuration")) ∧
    MultiBackend.instantiate ⟨"U", none⟩ (.vstr "x") =
      .error (.vexc .configErr 0 (.vstr "The MultiBackend class has no registered backends.")) ∧
    MultiBackend.instantiate ⟨"T", some [("test", "TI")]⟩ (.vstr "nope") =
      .error (.vexc .configErr 0 (.vstr "The backend does not exist.")) ∧
    MultiBackend.instantiate ⟨"T", some [("test", "TI")]⟩ (.vstr "test") = .ok "TI" :=
  ⟨((registry_configuration_errors ⟨"T", some [("test", "TI")]⟩ [("a", .vint 1)] "x" []).1
      rfl).2,
   (registry_configuration_errors ⟨"U", none⟩ [] "x" []).2.1 rfl,
   (registry_configuration_errors ⟨"T", some [("test", "TI")]⟩ [] "nope"
      [("test", "TI")]).2.2.1 rfl rfl,
   (registry_configuration_errors ⟨"T", some [("test", "TI")]⟩ [] "test"
      [("test", "TI")]).2.2.2 ("test", "TI") rfl rfl⟩

/-- Claim C9: the YAML channel shared by the three AMQP role implementations
round-trips every payload value: deserializing the serialization of any
value yields that value. -/
theorem yaml_channel_roundtrip (P : PyVal) : deserializeY (serializeY P) = some P :=
  deserialize_serialize P

/-- Claim C10: calling `MultiBackend.instantiate` with discriminator `None` bypasses the
backend registry entirely and constructs an instance of the role class
itself, raising no configuration error even for a role class with no
`backends` attribute at all. -/
theorem instantiate_none_returns_role_class (cls : RoleClass) :
    MultiBackend.instantiate cls .vnone = .ok cls.name ∧
    MultiBackend.instantiate ⟨cls.name, none⟩ .vnone = .ok cls.name :=
  ⟨rfl, rfl⟩
